import Mathlib

/-!
Shallow embedding of the movie-trivia backend (src/infer.py and src/api.py).

Python values that can appear in a movie record are embedded as `PyVal`;
a movie record (a Python dict produced by `DataFrame.to_dicts()`) is a
`PyDict`, an association list of string keys.  Operations that can raise a
Python exception are embedded in `Except String`; the error string records
the kind of exception.  The standard-library JSON parser `json.loads` is an
external capability and is embedded as an abstract parameter
`parse : JsonParser`, where `Option.none` stands for `json.loads` raising.
-/

/-- Embedding of the Python values stored in movie records: `None`, strings,
numbers (embedded as integers), lists and dicts. -/
inductive PyVal where
  | none
  | str (s : String)
  | int (n : Int)
  | list (xs : List PyVal)
  | dict (kvs : List (String × PyVal))

/-- Movie record as produced by `DataFrame.to_dicts()`: a Python dict with
string keys. -/
abbrev PyDict := List (String × PyVal)

/-- Python truthiness: `None`, `""`, `0`, `[]` and the empty dict are falsy. -/
def truthy : PyVal → Bool
  | .none => false
  | .str s => !(s == "")
  | .int n => !(n == 0)
  | .list xs => !xs.isEmpty
  | .dict kvs => !kvs.isEmpty

/-- Python `d.get(k)`: value of the first (unique) binding of `k`, defaulting
to `None` when the key is absent. -/
def pyGet (d : PyDict) (k : String) : PyVal :=
  match d.find? (fun kv => kv.1 == k) with
  | some kv => kv.2
  | Option.none => PyVal.none

/-- Python `d.get(k)` on an embedded value known to be a dict (used for the
`g.get("name")` accesses inside list comprehensions). -/
def dictGet (v : PyVal) (k : String) : PyVal :=
  match v with
  | .dict kvs => pyGet kvs k
  | _ => PyVal.none

/-- Python `a or b`: `a` when `a` is truthy, otherwise `b`. -/
def pyOr (a b : PyVal) : PyVal := if truthy a then a else b

mutual
/-- Python `repr` of an embedded value (as used by `str()` inside f-strings
for non-string values). -/
def pyRepr : PyVal → String
  | .none => "None"
  | .str s => "\x27" ++ s ++ "\x27"
  | .int n => toString n
  | .list xs => "[" ++ pyReprItems xs ++ "]"
  | .dict kvs => "\x7b" ++ pyReprPairs kvs ++ "\x7d"

/-- Comma-separated `repr` of the items of a Python list. -/
def pyReprItems : List PyVal → String
  | [] => ""
  | [x] => pyRepr x
  | x :: y :: xs => pyRepr x ++ ", " ++ pyReprItems (y :: xs)

/-- Comma-separated `repr` of the key/value pairs of a Python dict. -/
def pyReprPairs : List (String × PyVal) → String
  | [] => ""
  | [kv] => "\x27" ++ kv.1 ++ "\x27: " ++ pyRepr kv.2
  | kv :: kv2 :: xs => "\x27" ++ kv.1 ++ "\x27: " ++ pyRepr kv.2 ++ ", " ++ pyReprPairs (kv2 :: xs)
end

/-- Python `str()` as applied by f-string interpolation: a string renders as
itself, anything else as its `repr`-style rendering. -/
def pyStr : PyVal → String
  | .str s => s
  | v => pyRepr v

/-- Python `s.strip()` on a string: drops leading and trailing whitespace. -/
def pyTrim (s : String) : String :=
  String.mk (((s.data.dropWhile Char.isWhitespace).reverse.dropWhile Char.isWhitespace).reverse)

/-- Python `s.lower()` on a string. -/
def pyToLower (s : String) : String :=
  String.mk (s.data.map Char.toLower)

/-- Python `v.strip()`: succeeds (with surrounding whitespace removed) only on
strings, otherwise raises `AttributeError`. -/
def pyStrip : PyVal → Except String String
  | .str s => .ok (pyTrim s)
  | _ => .error "AttributeError: strip"

/-- Python `v.lower()`: succeeds only on strings, otherwise raises
`AttributeError`. -/
def pyLower : PyVal → Except String String
  | .str s => .ok (pyToLower s)
  | _ => .error "AttributeError: lower"

/-- Python `for x in v`: lists iterate their items, dicts their keys, strings
their characters; `None` and numbers are not iterable (`TypeError`). -/
def pyIter : PyVal → Except String (List PyVal)
  | .list xs => .ok xs
  | .dict kvs => .ok (kvs.map (fun kv => PyVal.str kv.1))
  | .str s => .ok (s.toList.map (fun c => PyVal.str (String.mk [c])))
  | .none => .error "TypeError: NoneType is not iterable"
  | .int _ => .error "TypeError: int is not iterable"

/-- String extraction used by `str.join`: only genuine strings qualify. -/
def strOf? : PyVal → Option String
  | .str s => some s
  | _ => Option.none

/-- Extraction of a whole list of strings, as `str.join` requires: fails as
soon as one item is not a string. -/
def strsOf? : List PyVal → Option (List String)
  | [] => some []
  | v :: vs =>
    match strOf? v, strsOf? vs with
    | some s, some ss => some (s :: ss)
    | _, _ => Option.none

/-- Python `sep.join(vs)`: raises `TypeError` when any item is not a string. -/
def pyJoin (sep : String) (vs : List PyVal) : Except String String :=
  match strsOf? vs with
  | some ss => .ok (String.intercalate sep ss)
  | Option.none => .error "TypeError: sequence item is not str"

/-- Abstract embedding of `json.loads`: `Option.none` stands for the parser
raising on the given string. -/
abbrev JsonParser := String → Option PyVal

/-- Embedding of `_safe_load_json` (src/infer.py lines 70-78): `None` decodes
to the empty list, already-structured values (lists and dicts) are returned
unchanged, strings are handed to `json.loads` with any parse failure caught
and turned into the empty list, and any other value (on which `json.loads`
raises `TypeError`) also yields the empty list. -/
def safe_load_json (parse : JsonParser) : PyVal → PyVal
  | .none => .list []
  | .list xs => .list xs
  | .dict kvs => .dict kvs
  | .str s =>
    match parse s with
    | some v => v
    | Option.none => .list []
  | .int _ => .list []

/-- Python `isinstance(v, dict)`. -/
def isDictB : PyVal → Bool
  | .dict _ => true
  | _ => false

/-- Embedding of the comprehension `[g.get("name") for g in xs if
isinstance(g, dict)]` (src/infer.py lines 94-95). -/
def namesOfDicts (xs : List PyVal) : List PyVal :=
  (xs.filter isDictB).map (fun g => dictGet g "name")

/-- Condition of the directors comprehension (src/infer.py line 98):
`isinstance(c, dict) and c.get("job") and c.get("job").lower() == "director"`.
The call `.lower()` raises when a truthy `job` value is not a string. -/
def directorCond (c : PyVal) : Except String Bool :=
  match c with
  | .dict kvs =>
    let job := pyGet kvs "job"
    if truthy job then
      match pyLower job with
      | .ok j => .ok (j == "director")
      | .error e => .error e
    else .ok false
  | _ => .ok false

/-- Filtering of a Python list comprehension whose condition may raise: the
condition is evaluated left to right and the first exception propagates. -/
def exceptFilter (p : PyVal → Except String Bool) : List PyVal → Except String (List PyVal)
  | [] => .ok []
  | x :: xs => do
    let b ← p x
    let rest ← exceptFilter p xs
    pure (if b then x :: rest else rest)

/-- Embedding of the Python conditional expression
`", ".join(vs) if vs else "N/A"` used by the fact lines for genres, cast and
directors (src/infer.py lines 104-106). -/
def joinOrNA (vs : List PyVal) : Except String String :=
  if vs.isEmpty then Except.ok "N/A" else pyJoin ", " vs

/-- Embedding of the `facts` list built by `build_facts_and_instruction`
(src/infer.py lines 86-111): nine labeled fact lines, with the sentinel
`N/A` substituted for falsy data.  Exceptions raised by the Python body
(non-string `.strip()` targets, non-iterable decoded sub-fields, non-string
`.lower()` targets in the crew filter, non-string items handed to
`", ".join`) surface as `Except.error`, in source evaluation order. -/
def facts_list (parse : JsonParser) (movie : PyDict) : Except String (List String) := do
  let overview := pyOr (pyGet movie "overview") (.str "")
  let release_date := pyOr (pyGet movie "release_date") (.str "")
  let popularity := pyOr (pyGet movie "popularity") (.str "")
  let runtime := pyOr (pyGet movie "runtime") (.str "")
  let vote_average := pyOr (pyGet movie "vote_average") (.str "")
  let vote_count := pyOr (pyGet movie "vote_count") (.str "")
  let genresIter ← pyIter (safe_load_json parse (pyGet movie "genres"))
  let genres_list := namesOfDicts genresIter
  let castIter ← pyIter (safe_load_json parse (pyGet movie "cast"))
  let cast_list := namesOfDicts castIter
  let main_cast := if cast_list.isEmpty then [] else cast_list.take 6
  let crew ← pyIter (safe_load_json parse (pyGet movie "crew"))
  let crewDirs ← exceptFilter directorCond crew
  let directors := crewDirs.map (fun c => dictGet c "name")
  let directors := if directors.isEmpty then [] else directors
  let ovS ← pyStrip overview
  let genresStr ← joinOrNA genres_list
  let castStr ← joinOrNA main_cast
  let dirStr ← joinOrNA directors
  pure [
    "Overview: " ++ (if ovS == "" then "N/A" else ovS),
    "Release date: " ++ pyStr (pyOr release_date (.str "N/A")),
    "Genres: " ++ genresStr,
    "Main cast (top billed): " ++ castStr,
    "Director(s): " ++ dirStr,
    "Runtime (minutes): " ++ pyStr (pyOr runtime (.str "N/A")),
    "Average rating: " ++ pyStr (pyOr vote_average (.str "N/A")) ++
      " (votes: " ++ pyStr (pyOr vote_count (.str "N/A")) ++ ")",
    "Popularity score: " ++ pyStr (pyOr popularity (.str "N/A")),
    "Language: " ++ pyStr (pyOr (pyGet movie "language") (.str "N/A"))
  ]

/-- Opening chunk of the `system_instruction` f-string (src/infer.py lines
115-123), up to the spliced lower-cased title of rule 2. -/
def instrPre : String :=
  "\nYou are an assistant that answers only \x27Yes\x27 or \x27No\x27 about a hidden movie\n" ++
  "based on the factual information provided in the \x27Movie facts\x27 section below.\n\n" ++
  "RULES:\n" ++
  "1. If the user explicitly guesses the movie (e.g., \"is the movie X?\" or \"is it X?\"),\n" ++
  "   compare their guess (case-insensitive) to the hidden title and hidden franchise.\n" ++
  "2. If the guess matches exactly or clearly refers to the correct franchise, respond:\n" ++
  "   \""

/-- Fixed correct-guess reply template of rule 2 (src/infer.py line 123),
with the lower-cased hidden title spliced in. -/
def guessTemplate (titleLower : String) : String :=
  "Yes, that is correct! The movie is " ++ titleLower ++ "."

/-- Middle chunk of the `system_instruction` f-string (src/infer.py lines
123-129), between the rule-2 template and the final `The movie title is:`
line. -/
def instrMid : String :=
  "\"\n" ++
  "3. If the guess is incorrect, respond:\n" ++
  "   \"No, that is not the movie or its franchise.\"\n" ++
  "4. For other questions that can be answered with the provided facts, respond only with \"Yes\" or \"No\".\n" ++
  "5. If the fact is missing from the provided facts, respond \"I don\x27t have that information.\"\n" ++
  "6. Never provide extra explanations or reveal the title unless the user explicitly asks or guesses correctly.\n\n"

/-- Embedding of `build_facts_and_instruction` (src/infer.py lines 86-133):
returns the newline-joined facts block and the `system_instruction` string.
The f-string calls `movie.get("title").lower()` (twice) and
`movie.get("language").lower()`, which raise `AttributeError` when those
fields are absent, `None`, or not strings. -/
def build_facts_and_instruction (parse : JsonParser) (movie : PyDict) :
    Except String (String × String) := do
  let facts ← facts_list parse movie
  let facts_block := String.intercalate "\n" facts
  let titleLower ← pyLower (pyGet movie "title")
  let langLower ← pyLower (pyGet movie "language")
  let system_instruction :=
    instrPre ++ guessTemplate titleLower ++ instrMid ++
    "The movie title is: \"" ++ titleLower ++ "\"" ++ "\n" ++
    "The movie language is: \"" ++ langLower ++ "\"" ++ "\n"
  pure (facts_block, system_instruction)

/-- Prompt composed by `ask_question` (src/infer.py lines 148-153):
system instruction, the facts block under a `Movie facts:` header, and the
lower-cased, trimmed user question. -/
def ask_question_prompt (parse : JsonParser) (movie : PyDict) (user_question : String) :
    Except String String := do
  let fi ← build_facts_and_instruction parse movie
  pure (fi.2 ++ "\n\n" ++ "Movie facts:\n" ++ fi.1 ++ "\n\n" ++
    "User question: " ++ pyToLower (pyTrim user_question))

/-- Session store `session_movies` (src/infer.py line 65): a mapping from
session id to the movie dict bound to it, embedded as an association list
(most recent insertion first). -/
abbrev SessionStore := List (String × PyDict)

/-- Lookup of a session id in the store (Python `session_id in session_movies`
/ `session_movies[session_id]`). -/
def storeGet? (st : SessionStore) (sid : String) : Option PyDict :=
  (st.find? (fun kv => kv.1 == sid)).map Prod.snd

/-- Embedding of `get_or_create_movie` (src/infer.py lines 80-84).  The
parameter `draw` stands for the movie produced by the random sample
`combined_df.sample(n=1).to_dicts()[0]`; it is used only when the session id
is unseen, in which case it is bound and returned together with the updated
store. -/
def get_or_create_movie (draw : PyDict) (st : SessionStore) (sid : String) :
    PyDict × SessionStore :=
  match storeGet? st sid with
  | some m => (m, st)
  | Option.none => (draw, (sid, draw) :: st)

/-- Sequence of registry calls: each element carries the movie the random
sampler would draw for that call and the session id of the call. -/
def runSession (calls : List (PyDict × String)) (st : SessionStore) : SessionStore :=
  calls.foldl (fun s c => (get_or_create_movie c.1 s c.2).2) st

/-- Embedding of `ask_question` (src/infer.py lines 144-164): resolves the
session to a movie (possibly binding `draw`), composes the prompt and hands
it to the external completion capability `llm` (prompt to trimmed reply, or
failure); any exception raised after the binding leaves the binding in
place. -/
def ask_question (parse : JsonParser) (llm : String → Except String String)
    (draw : PyDict) (st : SessionStore) (user_question sid : String) :
    Except String String × SessionStore :=
  let ms := get_or_create_movie draw st sid
  match ask_question_prompt parse ms.1 user_question with
  | .error e => (.error e, ms.2)
  | .ok prompt =>
    match llm prompt with
    | .ok reply => (.ok (pyTrim reply), ms.2)
    | .error e => (.error e, ms.2)

/-- List-level substring search underlying the Python `in` operator on
strings: tested at every suffix of the haystack. -/
def listContains (needle : List Char) : List Char → Bool
  | [] => needle.isEmpty
  | c :: cs => List.isPrefixOf needle (c :: cs) || listContains needle cs

/-- Python `hay.startswith(needle)`. -/
def startswith (hay needle : String) : Bool :=
  List.isPrefixOf needle.toList hay.toList

/-- Python `needle in hay` for strings. -/
def strIn (needle hay : String) : Bool :=
  listContains needle.toList hay.toList

/-- Proposition form of string containment: `needle` occurs contiguously
inside `hay`. -/
def StrContains (hay needle : String) : Prop :=
  ∃ p q, hay = p ++ needle ++ q

/-- Game-over derivation of the `/ask` boundary (src/api.py lines 31-32):
the lower-cased answer starts with `yes` and contains `correct`. -/
def compute_game_over (answer : String) : Bool :=
  let resp_lower := pyToLower answer
  startswith resp_lower "yes" && strIn "correct" resp_lower

/-- Outcome of the `/ask` endpoint: a 400 client rejection, a 500 server
error carrying the exception text, or a successful answer payload. -/
inductive AskResult where
  | clientError (code : Nat) (detail : String)
  | serverError (code : Nat) (detail : String)
  | ok (answer : String) (game_over : Bool) (session_id : String)

/-- Embedding of the `/ask` endpoint `ask_movie_question` (src/api.py lines
20-35).  `header_sid` is the `X-Session-ID` header (absent or its string
value); `gen_sid` stands for the `uuid4` generated when the header is falsy.
The endpoint first rejects an empty or whitespace-only question with a 400
error, leaving the store untouched; otherwise it calls `ask_question`,
derives `game_over` from the answer text, and maps any exception to a 500
error. -/
def ask_movie_question (parse : JsonParser) (llm : String → Except String String)
    (draw : PyDict) (st : SessionStore) (question : String)
    (header_sid : Option String) (gen_sid : String) : AskResult × SessionStore :=
  if pyTrim question == "" then
    (.clientError 400 "Question must not be empty.", st)
  else
    let session_id :=
      match header_sid with
      | some s => if s == "" then gen_sid else s
      | Option.none => gen_sid
    match ask_question parse llm draw st question session_id with
    | (.ok answer, st2) => (.ok answer (compute_game_over answer) session_id, st2)
    | (.error e, st2) => (.serverError 500 e, st2)

/-- Row selection by index list: the embedding of a polars sample or shuffle,
whose library contract supplies the index list drawn from the seed. -/
def sampleIdx (idx : List Nat) (rows : List PyDict) : List PyDict :=
  idx.filterMap (fun i => rows.get? i)

/-- Embedding of the candidate-pool construction (src/infer.py lines 58-60):
150 rows sampled from each normalized source (`df_tmdb_simple`,
`df_bollywood`), concatenated tmdb-first and then shuffled by
`sample(fraction=1.0, shuffle=True)`.  The index lists stand for the
selections the seeded polars sampler makes. -/
def build_pool (tmdbRows bollyRows : List PyDict) (tIdx bIdx sIdx : List Nat) :
    List PyDict :=
  let df_tmdb_sample := sampleIdx tIdx tmdbRows
  let df_bollywood_sample := sampleIdx bIdx bollyRows
  sampleIdx sIdx (df_tmdb_sample ++ df_bollywood_sample)

/-- Normalized TMDB pool row (src/infer.py lines 18-25 and 48-56): columns
title, release_date, genres, overview, a null director and the constant
language `English`. -/
def tmdbRecord (title release_date genres overview : PyVal) : PyDict :=
  [("title", title), ("release_date", release_date), ("genres", genres),
   ("overview", overview), ("director", PyVal.none), ("language", PyVal.str "English")]

/-- Normalized Bollywood pool row (src/infer.py lines 39-47): columns title,
release_date, genres, overview, director and the constant language
`Hindi`. -/
def bollyRecord (title release_date genres overview director : PyVal) : PyDict :=
  [("title", title), ("release_date", release_date), ("genres", genres),
   ("overview", overview), ("director", director), ("language", PyVal.str "Hindi")]

/-- Test that a value is a Python string. -/
def isStrB : PyVal → Bool
  | .str _ => true
  | _ => false

/-- Test that a value is `None` or a string (the shapes on which the
extractor's `or ""` default followed by `.strip()` cannot raise). -/
def strOrNoneB : PyVal → Bool
  | .none => true
  | .str _ => true
  | _ => false

/-- Well-shaped entry of a decoded genres/cast list: dict entries must carry
a string `name` (non-dict entries are filtered out by the comprehension). -/
def goodEntryName : PyVal → Bool
  | .dict kvs => isStrB (pyGet kvs "name")
  | _ => true

/-- Well-shaped entry of a decoded crew list: dict entries must carry a
string `name` and an absent, null or string `job`. -/
def goodCrewEntry : PyVal → Bool
  | .dict kvs => isStrB (pyGet kvs "name") && strOrNoneB (pyGet kvs "job")
  | _ => true

/-- The field defensively decodes to a list of well-named entries. -/
def decodesToNameList (parse : JsonParser) (v : PyVal) : Bool :=
  match safe_load_json parse v with
  | .list xs => xs.all goodEntryName
  | _ => false

/-- The field defensively decodes to a list of well-shaped crew entries. -/
def decodesToCrewList (parse : JsonParser) (v : PyVal) : Bool :=
  match safe_load_json parse v with
  | .list xs => xs.all goodCrewEntry
  | _ => false

/-- Well-shaped movie record: the sufficient condition under which the body
of `build_facts_and_instruction` cannot raise — overview absent, null or a
string; genres, cast and crew decoding to lists of well-shaped entries; and
string title and language for the instruction's `.lower()` calls. -/
def wellFormedRecord (parse : JsonParser) (movie : PyDict) : Bool :=
  strOrNoneB (pyGet movie "overview") &&
  decodesToNameList parse (pyGet movie "genres") &&
  decodesToNameList parse (pyGet movie "cast") &&
  decodesToCrewList parse (pyGet movie "crew") &&
  isStrB (pyGet movie "title") &&
  isStrB (pyGet movie "language")

/-- Inversion of a successful `Except` bind: the first stage succeeded and its
value drove the second stage to the final result. -/
theorem except_bind_ok {α β : Type} (e : Except String α) (f : α → Except String β) (b : β) :
    (e >>= f = .ok b) ↔ ∃ a, e = .ok a ∧ f a = .ok b := by
  cases e with
  | error err => simp [Bind.bind, Except.bind]
  | ok a => simp [Bind.bind, Except.bind]

/-- Binding some other (or the same) session never disturbs an existing
binding: one registry call preserves every bound session. -/
theorem bound_preserved (d : PyDict) (st : SessionStore) (s2 sid : String) (m : PyDict)
    (h : storeGet? st sid = some m) :
    storeGet? (get_or_create_movie d st s2).2 sid = some m := by
  unfold get_or_create_movie
  cases h2 : storeGet? st s2 with
  | some m2 => simpa using h
  | none =>
    have hne : (s2 == sid) = false := by
      rcases hbe : s2 == sid with _ | _
      · rfl
      · exfalso
        have : s2 = sid := by simpa using hbe
        rw [this] at h2
        rw [h2] at h
        cases h
    simpa [storeGet?, List.find?, hne] using h

/-- C1: once the registry has bound a MovieRecord to a session id, any
sequence of later registry calls (for arbitrary session ids, with arbitrary
random draws) leaves that binding unchanged, and a later
`get_or_create_movie` call for that id returns exactly the bound record and
does not modify the store. -/
theorem session_binding_stable (calls : List (PyDict × String)) (st : SessionStore)
    (sid : String) (m draw : PyDict) (h : storeGet? st sid = some m) :
    storeGet? (runSession calls st) sid = some m ∧
    get_or_create_movie draw (runSession calls st) sid = (m, runSession calls st) := by
  have key : storeGet? (runSession calls st) sid = some m := by
    induction calls generalizing st with
    | nil => simpa [runSession] using h
    | cons c cs ih =>
      have h1 := bound_preserved c.1 st c.2 sid m h
      simpa [runSession] using ih _ h1
  refine ⟨key, ?_⟩
  unfold get_or_create_movie
  rw [key]

/-- Witness for C1: a store binding session `s1` to a record, after a call
for a different session `s2`, still answers `s1` with the original record. -/
theorem session_binding_stable_witness :
    storeGet? (runSession [([("title", PyVal.str "Avatar")], "s2")]
        [("s1", [("title", PyVal.str "Inception")])]) "s1" =
      some [("title", PyVal.str "Inception")] ∧
    get_or_create_movie [("title", PyVal.str "Up")]
        (runSession [([("title", PyVal.str "Avatar")], "s2")]
          [("s1", [("title", PyVal.str "Inception")])]) "s1" =
      ([("title", PyVal.str "Inception")],
        runSession [([("title", PyVal.str "Avatar")], "s2")]
          [("s1", [("title", PyVal.str "Inception")])]) :=
  session_binding_stable [([("title", PyVal.str "Avatar")], "s2")]
    [("s1", [("title", PyVal.str "Inception")])] "s1"
    [("title", PyVal.str "Inception")] [("title", PyVal.str "Up")] rfl

/-- C5: the defensive decoder `_safe_load_json` is total (never raises) and,
on null input or a string the JSON parser rejects, yields the empty list,
while already-structured values (lists and dicts) pass through unchanged. -/
theorem safe_load_json_spec (parse : JsonParser) :
    safe_load_json parse PyVal.none = PyVal.list [] ∧
    (∀ s, parse s = Option.none → safe_load_json parse (PyVal.str s) = PyVal.list []) ∧
    (∀ xs, safe_load_json parse (PyVal.list xs) = PyVal.list xs) ∧
    (∀ kvs, safe_load_json parse (PyVal.dict kvs) = PyVal.dict kvs) := by
  refine ⟨rfl, ?_, fun xs => rfl, fun kvs => rfl⟩
  intro s hs
  simp [safe_load_json, hs]

/-- Witness for C5: concrete null, rejected-string, list and dict inputs. -/
theorem safe_load_json_spec_witness :
    safe_load_json (fun _ => Option.none) PyVal.none = PyVal.list [] ∧
    safe_load_json (fun _ => Option.none) (PyVal.str "not json") = PyVal.list [] ∧
    safe_load_json (fun _ => Option.none) (PyVal.list [PyVal.int 3]) = PyVal.list [PyVal.int 3] ∧
    safe_load_json (fun _ => Option.none) (PyVal.dict [("a", PyVal.int 1)]) =
      PyVal.dict [("a", PyVal.int 1)] :=
  ⟨(safe_load_json_spec (fun _ => Option.none)).1,
   (safe_load_json_spec (fun _ => Option.none)).2.1 "not json" rfl,
   (safe_load_json_spec (fun _ => Option.none)).2.2.1 [PyVal.int 3],
   (safe_load_json_spec (fun _ => Option.none)).2.2.2 [("a", PyVal.int 1)]⟩

/-- C7: a question that is empty after stripping whitespace is rejected with
the 400 client error, and the session store is returned untouched: no
binding is created or changed for any session id. -/
theorem empty_question_rejected (parse : JsonParser) (llm : String → Except String String)
    (draw : PyDict) (st : SessionStore) (question : String) (header_sid : Option String)
    (gen_sid : String) (h : pyTrim question = "") :
    ask_movie_question parse llm draw st question header_sid gen_sid =
      (AskResult.clientError 400 "Question must not be empty.", st) := by
  simp [ask_movie_question, h]

/-- Witness for C7: the whitespace-only question consisting of three spaces
is rejected with HTTP 400 and the (empty) store is unchanged. -/
theorem empty_question_rejected_witness :
    pyTrim "   " = "" ∧
    ask_movie_question (fun _ => Option.none) (fun p => Except.ok p) [] [] "   "
        Option.none "gen" =
      (AskResult.clientError 400 "Question must not be empty.", []) :=
  ⟨rfl, empty_question_rejected (fun _ => Option.none) (fun p => Except.ok p) [] [] "   "
    Option.none "gen" rfl⟩

/-- Correctness of the list-level substring search: it finds exactly the
contiguous occurrences. -/
theorem listContains_spec (n h : List Char) :
    listContains n h = true ↔ ∃ p q, h = p ++ n ++ q := by
  induction h with
  | nil =>
    simp only [listContains, List.isEmpty_iff]
    constructor
    · intro hn
      exact ⟨[], [], by simp [hn]⟩
    · rintro ⟨p, q, hpq⟩
      rcases List.append_eq_nil.mp hpq.symm with ⟨h1, h2⟩
      rcases List.append_eq_nil.mp h1 with ⟨h3, h4⟩
      exact h4
  | cons c cs ih =>
    simp only [listContains, Bool.or_eq_true, ih]
    rw [ List.isPrefixOf_iff_prefix]
    constructor
    · rintro (hpre | ⟨p, q, rfl⟩)
      · obtain ⟨t, ht⟩ := hpre
        exact ⟨[], t, by simp [ht.symm]⟩
      · exact ⟨c :: p, q, by simp⟩
    · rintro ⟨p, q, hpq⟩
      cases p with
      | nil =>
        left
        exact ⟨q, by simpa using hpq.symm⟩
      | cons a p2 =>
        right
        rw [List.cons_append, List.cons_append] at hpq
        injection hpq with h1 h2
        exact ⟨p2, q, h2⟩

/-- Correctness of the embedded Python `startswith`. -/
theorem startswith_spec (hay needle : String) :
    startswith hay needle = true ↔ ∃ r, hay = needle ++ r := by
  unfold startswith
  rw [ List.isPrefixOf_iff_prefix]
  constructor
  · rintro ⟨t, ht⟩
    refine ⟨String.mk t, String.ext ?_⟩
    rw [String.data_append]
    exact ht.symm
  · rintro ⟨r, rfl⟩
    exact ⟨r.data, by simp [String.toList, String.data_append]⟩

/-- Correctness of the embedded Python `in` operator on strings. -/
theorem strIn_spec (needle hay : String) :
    strIn needle hay = true ↔ ∃ p q, hay = p ++ needle ++ q := by
  unfold strIn
  rw [listContains_spec]
  constructor
  · rintro ⟨p, q, hpq⟩
    refine ⟨String.mk p, String.mk q, String.ext ?_⟩
    rw [String.data_append, String.data_append]
    exact hpq
  · rintro ⟨p, q, rfl⟩
    refine ⟨p.data, q.data, ?_⟩
    simp [String.toList, String.data_append]

/-- Characterization of the boundary layer's game-over computation: true
exactly when the lower-cased answer starts with `yes` and contains the
substring `correct`. -/
theorem compute_game_over_iff (a : String) :
    compute_game_over a = true ↔
      ((∃ r, pyToLower a = "yes" ++ r) ∧ ∃ p q, pyToLower a = p ++ "correct" ++ q) := by
  show (startswith (pyToLower a) "yes" && strIn "correct" (pyToLower a)) = true ↔ _
  rw [Bool.and_eq_true, startswith_spec, strIn_spec]

/-- C6: for every answer the `/ask` boundary returns, the `game_over` field
is true if and only if the lower-cased answer text starts with `yes` and
contains the substring `correct`. -/
theorem game_over_spec (parse : JsonParser) (llm : String → Except String String)
    (draw : PyDict) (st : SessionStore) (question : String) (header_sid : Option String)
    (gen_sid answer : String) (go : Bool) (sid : String) (st2 : SessionStore)
    (h : ask_movie_question parse llm draw st question header_sid gen_sid =
      (AskResult.ok answer go sid, st2)) :
    go = true ↔
      ((∃ r, pyToLower answer = "yes" ++ r) ∧
        ∃ p q, pyToLower answer = p ++ "correct" ++ q) := by
  simp only [ask_movie_question] at h
  split at h
  · simp at h
  · split at h
    · injection h with h1 h2
      injection h1 with ha hgo hsid
      subst ha
      rw [← hgo]
      exact compute_game_over_iff _
    · simp at h

/-- Inversion of a successful fact extraction: every intermediate Python step
succeeded and the nine fact lines are exactly the labeled renderings the
source builds. -/
theorem facts_list_shape (parse : JsonParser) (movie : PyDict) (fs : List String)
    (h : facts_list parse movie = Except.ok fs) :
    ∃ (gI cI crI crD : List PyVal) (ovS genS castS dirS : String),
      pyIter (safe_load_json parse (pyGet movie "genres")) = Except.ok gI ∧
      pyIter (safe_load_json parse (pyGet movie "cast")) = Except.ok cI ∧
      pyIter (safe_load_json parse (pyGet movie "crew")) = Except.ok crI ∧
      exceptFilter directorCond crI = Except.ok crD ∧
      pyStrip (pyOr (pyGet movie "overview") (PyVal.str "")) = Except.ok ovS ∧
      joinOrNA (namesOfDicts gI) = Except.ok genS ∧
      joinOrNA (if (namesOfDicts cI).isEmpty then [] else (namesOfDicts cI).take 6) =
        Except.ok castS ∧
      joinOrNA (if (crD.map (fun c => dictGet c "name")).isEmpty then []
        else crD.map (fun c => dictGet c "name")) = Except.ok dirS ∧
      fs = [
        "Overview: " ++ (if ovS == "" then "N/A" else ovS),
        "Release date: " ++
          pyStr (pyOr (pyOr (pyGet movie "release_date") (PyVal.str "")) (PyVal.str "N/A")),
        "Genres: " ++ genS,
        "Main cast (top billed): " ++ castS,
        "Director(s): " ++ dirS,
        "Runtime (minutes): " ++
          pyStr (pyOr (pyOr (pyGet movie "runtime") (PyVal.str "")) (PyVal.str "N/A")),
        "Average rating: " ++
          pyStr (pyOr (pyOr (pyGet movie "vote_average") (PyVal.str "")) (PyVal.str "N/A")) ++
          " (votes: " ++
          pyStr (pyOr (pyOr (pyGet movie "vote_count") (PyVal.str "")) (PyVal.str "N/A")) ++ ")",
        "Popularity score: " ++
          pyStr (pyOr (pyOr (pyGet movie "popularity") (PyVal.str "")) (PyVal.str "N/A")),
        "Language: " ++ pyStr (pyOr (pyGet movie "language") (PyVal.str "N/A"))
      ] := by
  simp only [facts_list, except_bind_ok] at h
  obtain ⟨gI, hgI, cI, hcI, crI, hcrI, crD, hcrD, ovS, hovS, genS, hgenS, castS, hcastS,
    dirS, hdirS, hfs⟩ := h
  exact ⟨gI, cI, crI, crD, ovS, genS, castS, dirS, hgI, hcI, hcrI, hcrD, hovS, hgenS,
    hcastS, hdirS, (Except.ok.inj hfs).symm⟩

/-- C10: absence is tested by truthiness, so numeric zero and empty strings
render the `N/A` sentinel exactly like missing fields: a zero runtime,
vote_average, vote_count or popularity, and an empty overview or
release_date, each produce the sentinel in their fact line. -/
theorem falsy_fields_render_na (parse : JsonParser) (movie : PyDict) (fs : List String)
    (h : facts_list parse movie = Except.ok fs) :
    (pyGet movie "overview" = PyVal.str "" → fs.get? 0 = some "Overview: N/A") ∧
    (pyGet movie "release_date" = PyVal.str "" → fs.get? 1 = some "Release date: N/A") ∧
    (pyGet movie "runtime" = PyVal.int 0 → fs.get? 5 = some "Runtime (minutes): N/A") ∧
    (pyGet movie "vote_average" = PyVal.int 0 →
      ∃ vc, fs.get? 6 = some ("Average rating: N/A (votes: " ++ vc ++ ")")) ∧
    (pyGet movie "vote_count" = PyVal.int 0 →
      ∃ va, fs.get? 6 = some ("Average rating: " ++ va ++ " (votes: N/A)")) ∧
    (pyGet movie "popularity" = PyVal.int 0 → fs.get? 7 = some "Popularity score: N/A") := by
  obtain ⟨gI, cI, crI, crD, ovS, genS, castS, dirS, hgI, hcI, hcrI, hcrD, hovS, hgenS,
    hcastS, hdirS, hfs⟩ := facts_list_shape parse movie fs h
  subst hfs
  refine ⟨?_, ?_, ?_, ?_, ?_, ?_⟩
  · intro hget
    rw [hget] at hovS
    simp [pyOr, truthy, pyStrip, pyTrim] at hovS
    simp [List.get?, hovS.symm]
  · intro hget
    simp [List.get?, hget, pyOr, truthy, pyStr]
  · intro hget
    simp [List.get?, hget, pyOr, truthy, pyStr]
  · intro hget
    rw [hget]
    exact ⟨_, rfl⟩
  · intro hget
    rw [hget]
    refine ⟨pyStr (pyOr (pyOr (pyGet movie "vote_average") (PyVal.str "")) (PyVal.str "N/A")), ?_⟩
    show some ("Average rating: " ++
      pyStr (pyOr (pyOr (pyGet movie "vote_average") (PyVal.str "")) (PyVal.str "N/A")) ++
      " (votes: " ++ pyStr (pyOr (pyOr (PyVal.int 0) (PyVal.str "")) (PyVal.str "N/A")) ++ ")") = _
    rw [String.append_assoc, String.append_assoc]
    rfl
  · intro hget
    simp [List.get?, hget, pyOr, truthy, pyStr]

/-- Witness for C10: a record whose numeric fields are all zero and whose
overview and release_date are empty strings renders the sentinel on every
corresponding fact line. -/
theorem falsy_fields_render_na_witness :
    (pyGet [("overview", PyVal.str ""), ("release_date", PyVal.str ""),
        ("runtime", PyVal.int 0), ("vote_average", PyVal.int 0),
        ("vote_count", PyVal.int 0), ("popularity", PyVal.int 0),
        ("title", PyVal.str "T"), ("language", PyVal.str "Hindi")] "overview" =
        PyVal.str "" →
      (["Overview: N/A", "Release date: N/A", "Genres: N/A",
        "Main cast (top billed): N/A", "Director(s): N/A", "Runtime (minutes): N/A",
        "Average rating: N/A (votes: N/A)", "Popularity score: N/A",
        "Language: Hindi"] : List String).get? 0 = some "Overview: N/A") ∧
    (pyGet [("overview", PyVal.str ""), ("release_date", PyVal.str ""),
        ("runtime", PyVal.int 0), ("vote_average", PyVal.int 0),
        ("vote_count", PyVal.int 0), ("popularity", PyVal.int 0),
        ("title", PyVal.str "T"), ("language", PyVal.str "Hindi")] "release_date" =
        PyVal.str "" →
      (["Overview: N/A", "Release date: N/A", "Genres: N/A",
        "Main cast (top billed): N/A", "Director(s): N/A", "Runtime (minutes): N/A",
        "Average rating: N/A (votes: N/A)", "Popularity score: N/A",
        "Language: Hindi"] : List String).get? 1 = some "Release date: N/A") ∧
    (pyGet [("overview", PyVal.str ""), ("release_date", PyVal.str ""),
        ("runtime", PyVal.int 0), ("vote_average", PyVal.int 0),
        ("vote_count", PyVal.int 0), ("popularity", PyVal.int 0),
        ("title", PyVal.str "T"), ("language", PyVal.str "Hindi")] "runtime" =
        PyVal.int 0 →
      (["Overview: N/A", "Release date: N/A", "Genres: N/A",
        "Main cast (top billed): N/A", "Director(s): N/A", "Runtime (minutes): N/A",
        "Average rating: N/A (votes: N/A)", "Popularity score: N/A",
        "Language: Hindi"] : List String).get? 5 = some "Runtime (minutes): N/A") ∧
    (pyGet [("overview", PyVal.str ""), ("release_date", PyVal.str ""),
        ("runtime", PyVal.int 0), ("vote_average", PyVal.int 0),
        ("vote_count", PyVal.int 0), ("popularity", PyVal.int 0),
        ("title", PyVal.str "T"), ("language", PyVal.str "Hindi")] "vote_average" =
        PyVal.int 0 →
      ∃ vc, (["Overview: N/A", "Release date: N/A", "Genres: N/A",
        "Main cast (top billed): N/A", "Director(s): N/A", "Runtime (minutes): N/A",
        "Average rating: N/A (votes: N/A)", "Popularity score: N/A",
        "Language: Hindi"] : List String).get? 6 =
          some ("Average rating: N/A (votes: " ++ vc ++ ")")) ∧
    (pyGet [("overview", PyVal.str ""), ("release_date", PyVal.str ""),
        ("runtime", PyVal.int 0), ("vote_average", PyVal.int 0),
        ("vote_count", PyVal.int 0), ("popularity", PyVal.int 0),
        ("title", PyVal.str "T"), ("language", PyVal.str "Hindi")] "vote_count" =
        PyVal.int 0 →
      ∃ va, (["Overview: N/A", "Release date: N/A", "Genres: N/A",
        "Main cast (top billed): N/A", "Director(s): N/A", "Runtime (minutes): N/A",
        "Average rating: N/A (votes: N/A)", "Popularity score: N/A",
        "Language: Hindi"] : List String).get? 6 =
          some ("Average rating: " ++ va ++ " (votes: N/A)")) ∧
    (pyGet [("overview", PyVal.str ""), ("release_date", PyVal.str ""),
        ("runtime", PyVal.int 0), ("vote_average", PyVal.int 0),
        ("vote_count", PyVal.int 0), ("popularity", PyVal.int 0),
        ("title", PyVal.str "T"), ("language", PyVal.str "Hindi")] "popularity" =
        PyVal.int 0 →
      (["Overview: N/A", "Release date: N/A", "Genres: N/A",
        "Main cast (top billed): N/A", "Director(s): N/A", "Runtime (minutes): N/A",
        "Average rating: N/A (votes: N/A)", "Popularity score: N/A",
        "Language: Hindi"] : List String).get? 7 = some "Popularity score: N/A") :=
  falsy_fields_render_na (fun _ => Option.none)
    [("overview", PyVal.str ""), ("release_date", PyVal.str ""),
     ("runtime", PyVal.int 0), ("vote_average", PyVal.int 0),
     ("vote_count", PyVal.int 0), ("popularity", PyVal.int 0),
     ("title", PyVal.str "T"), ("language", PyVal.str "Hindi")]
    ["Overview: N/A", "Release date: N/A", "Genres: N/A",
     "Main cast (top billed): N/A", "Director(s): N/A", "Runtime (minutes): N/A",
     "Average rating: N/A (votes: N/A)", "Popularity score: N/A", "Language: Hindi"]
    rfl

/-- C9: the normalized pool rows (from either source) carry none of the keys
cast, crew, runtime, vote_average, vote_count, popularity that the extractor
reads, so whenever fact extraction succeeds on a pool record — whatever the
per-row column values, including the Bollywood director column, which the
extractor never consults — the Main cast, Director(s), Runtime, Average
rating and Popularity fact lines all carry the `N/A` sentinel. -/
theorem pool_record_na_lines (parse : JsonParser) (r : PyDict)
    (h : (∃ t rd g o, r = tmdbRecord t rd g o) ∨
         (∃ t rd g o d, r = bollyRecord t rd g o d))
    (fs : List String) (hf : facts_list parse r = Except.ok fs) :
    fs.get? 3 = some "Main cast (top billed): N/A" ∧
    fs.get? 4 = some "Director(s): N/A" ∧
    fs.get? 5 = some "Runtime (minutes): N/A" ∧
    fs.get? 6 = some "Average rating: N/A (votes: N/A)" ∧
    fs.get? 7 = some "Popularity score: N/A" := by
  obtain ⟨gI, cI, crI, crD, ovS, genS, castS, dirS, hgI, hcI, hcrI, hcrD, hovS, hgenS,
    hcastS, hdirS, hfs⟩ := facts_list_shape parse r fs hf
  subst hfs
  have hcast : pyGet r "cast" = PyVal.none := by
    rcases h with ⟨t, rd, g, o, rfl⟩ | ⟨t, rd, g, o, d, rfl⟩ <;> rfl
  have hcrew : pyGet r "crew" = PyVal.none := by
    rcases h with ⟨t, rd, g, o, rfl⟩ | ⟨t, rd, g, o, d, rfl⟩ <;> rfl
  have hrt : pyGet r "runtime" = PyVal.none := by
    rcases h with ⟨t, rd, g, o, rfl⟩ | ⟨t, rd, g, o, d, rfl⟩ <;> rfl
  have hva : pyGet r "vote_average" = PyVal.none := by
    rcases h with ⟨t, rd, g, o, rfl⟩ | ⟨t, rd, g, o, d, rfl⟩ <;> rfl
  have hvc : pyGet r "vote_count" = PyVal.none := by
    rcases h with ⟨t, rd, g, o, rfl⟩ | ⟨t, rd, g, o, d, rfl⟩ <;> rfl
  have hpop : pyGet r "popularity" = PyVal.none := by
    rcases h with ⟨t, rd, g, o, rfl⟩ | ⟨t, rd, g, o, d, rfl⟩ <;> rfl
  rw [hcast] at hcI
  obtain rfl : cI = [] := by
    simpa [pyIter, safe_load_json] using hcI.symm
  rw [hcrew] at hcrI
  obtain rfl : crI = [] := by
    simpa [pyIter, safe_load_json] using hcrI.symm
  obtain rfl : crD = [] := by
    simpa [exceptFilter] using hcrD.symm
  obtain rfl : castS = "N/A" := by
    simpa [joinOrNA, namesOfDicts] using hcastS.symm
  obtain rfl : dirS = "N/A" := by
    simpa [joinOrNA] using hdirS.symm
  rw [hrt, hva, hvc, hpop]
  exact ⟨rfl, rfl, rfl, rfl, rfl⟩

/-- Witness for C9: a concrete normalized TMDB pool row produces the `N/A`
sentinel on the cast, director, runtime, rating and popularity lines. -/
theorem pool_record_na_lines_witness :
    (["Overview: O", "Release date: 2009", "Genres: N/A",
      "Main cast (top billed): N/A", "Director(s): N/A", "Runtime (minutes): N/A",
      "Average rating: N/A (votes: N/A)", "Popularity score: N/A",
      "Language: English"] : List String).get? 3 =
        some "Main cast (top billed): N/A" ∧
    (["Overview: O", "Release date: 2009", "Genres: N/A",
      "Main cast (top billed): N/A", "Director(s): N/A", "Runtime (minutes): N/A",
      "Average rating: N/A (votes: N/A)", "Popularity score: N/A",
      "Language: English"] : List String).get? 4 = some "Director(s): N/A" ∧
    (["Overview: O", "Release date: 2009", "Genres: N/A",
      "Main cast (top billed): N/A", "Director(s): N/A", "Runtime (minutes): N/A",
      "Average rating: N/A (votes: N/A)", "Popularity score: N/A",
      "Language: English"] : List String).get? 5 = some "Runtime (minutes): N/A" ∧
    (["Overview: O", "Release date: 2009", "Genres: N/A",
      "Main cast (top billed): N/A", "Director(s): N/A", "Runtime (minutes): N/A",
      "Average rating: N/A (votes: N/A)", "Popularity score: N/A",
      "Language: English"] : List String).get? 6 =
        some "Average rating: N/A (votes: N/A)" ∧
    (["Overview: O", "Release date: 2009", "Genres: N/A",
      "Main cast (top billed): N/A", "Director(s): N/A", "Runtime (minutes): N/A",
      "Average rating: N/A (votes: N/A)", "Popularity score: N/A",
      "Language: English"] : List String).get? 7 = some "Popularity score: N/A" :=
  pool_record_na_lines (fun _ => Option.none)
    (tmdbRecord (PyVal.str "T") (PyVal.str "2009") PyVal.none (PyVal.str "O"))
    (Or.inl ⟨PyVal.str "T", PyVal.str "2009", PyVal.none, PyVal.str "O", rfl⟩)
    ["Overview: O", "Release date: 2009", "Genres: N/A",
     "Main cast (top billed): N/A", "Director(s): N/A", "Runtime (minutes): N/A",
     "Average rating: N/A (votes: N/A)", "Popularity score: N/A", "Language: English"]
    rfl

/-- Stripping the defaulted overview succeeds when the field is absent, null
or a string. -/
theorem pyStrip_or_ok (v : PyVal) (h : strOrNoneB v = true) :
    ∃ s, pyStrip (pyOr v (PyVal.str "")) = Except.ok s := by
  cases v with
  | none => exact ⟨pyTrim "", rfl⟩
  | str s =>
    unfold pyOr
    split
    · exact ⟨pyTrim s, rfl⟩
    · exact ⟨pyTrim "", rfl⟩
  | int n => cases h
  | list xs => cases h
  | dict kvs => cases h

/-- Mapping the join's string extraction over a list of strings succeeds. -/
theorem strsOf_some (vs : List PyVal) (h : ∀ v ∈ vs, isStrB v = true) :
    ∃ ss, strsOf? vs = some ss := by
  induction vs with
  | nil => exact ⟨[], rfl⟩
  | cons v vs ih =>
    obtain ⟨ss, hss⟩ := ih (fun w hw => h w (List.mem_cons_of_mem v hw))
    have hv := h v (List.mem_cons_self v vs)
    cases v with
    | str s =>
      refine ⟨s :: ss, ?_⟩
      simp [strsOf?, strOf?, hss]
    | none => cases hv
    | int n => cases hv
    | list xs => cases hv
    | dict kvs => cases hv

/-- The conditional join succeeds on any list of strings. -/
theorem joinOrNA_ok (vs : List PyVal) (h : ∀ v ∈ vs, isStrB v = true) :
    ∃ s, joinOrNA vs = Except.ok s := by
  unfold joinOrNA
  split
  · exact ⟨"N/A", rfl⟩
  · obtain ⟨ss, hss⟩ := strsOf_some vs h
    exact ⟨String.intercalate ", " ss, by simp [pyJoin, hss]⟩

/-- Every name the genres/cast comprehension collects from well-named
entries is a string. -/
theorem namesOfDicts_str (xs : List PyVal) (h : ∀ x ∈ xs, goodEntryName x = true) :
    ∀ v ∈ namesOfDicts xs, isStrB v = true := by
  intro v hv
  obtain ⟨g, hg, rfl⟩ := List.mem_map.mp hv
  have hgx := List.mem_filter.mp hg
  have hgood := h g hgx.1
  cases g with
  | dict kvs => simpa [goodEntryName, dictGet] using hgood
  | none => cases hgx.2
  | str s => cases hgx.2
  | int n => cases hgx.2
  | list ys => cases hgx.2

/-- The director filter never raises on a well-shaped crew entry. -/
theorem directorCond_ok (c : PyVal) (h : goodCrewEntry c = true) :
    ∃ b, directorCond c = Except.ok b := by
  cases c with
  | dict kvs =>
    unfold directorCond
    simp only [goodCrewEntry, Bool.and_eq_true] at h
    rcases hjob : pyGet kvs "job" with _ | s | n | xs | kvs2
    · exact ⟨false, by simp [truthy, hjob]⟩
    · by_cases hs : s = ""
      · exact ⟨false, by simp [truthy, hjob, hs]⟩
      · exact ⟨pyToLower s == "director", by simp [truthy, hjob, hs, pyLower]⟩
    · rw [hjob] at h
      rcases h with ⟨h1, h2⟩
      cases h2
    · rw [hjob] at h
      rcases h with ⟨h1, h2⟩
      cases h2
    · rw [hjob] at h
      rcases h with ⟨h1, h2⟩
      cases h2
  | none => exact ⟨false, rfl⟩
  | str s => exact ⟨false, rfl⟩
  | int n => exact ⟨false, rfl⟩
  | list xs => exact ⟨false, rfl⟩

/-- The comprehension filter succeeds when the condition succeeds on every
element, and keeps only elements of the input on which the condition held. -/
theorem exceptFilter_ok (p : PyVal → Except String Bool) (xs : List PyVal)
    (h : ∀ x ∈ xs, ∃ b, p x = Except.ok b) :
    ∃ ys, exceptFilter p xs = Except.ok ys ∧
      ∀ y ∈ ys, y ∈ xs ∧ p y = Except.ok true := by
  induction xs with
  | nil => exact ⟨[], rfl, by simp⟩
  | cons x xs ih =>
    obtain ⟨ys, hys, hmem⟩ := ih (fun w hw => h w (List.mem_cons_of_mem x hw))
    obtain ⟨b, hb⟩ := h x (List.mem_cons_self x xs)
    refine ⟨if b then x :: ys else ys, ?_, ?_⟩
    · cases b with
      | true => simp [exceptFilter, except_bind_ok, hb, hys]
      | false => simp [exceptFilter, except_bind_ok, hb, hys]
    · intro y hy
      cases b with
      | true =>
        rw [if_pos rfl] at hy
        rcases List.mem_cons.mp hy with rfl | hy2
        · exact ⟨List.mem_cons_self y xs, hb⟩
        · obtain ⟨h1, h2⟩ := hmem y hy2
          exact ⟨List.mem_cons_of_mem x h1, h2⟩
      | false =>
        rw [if_neg Bool.false_ne_true] at hy
        obtain ⟨h1, h2⟩ := hmem y hy
        exact ⟨List.mem_cons_of_mem x h1, h2⟩

/-- Inversion of a well-decoding name-list field. -/
theorem decodesToNameList_ok (parse : JsonParser) (v : PyVal)
    (h : decodesToNameList parse v = true) :
    ∃ xs, safe_load_json parse v = PyVal.list xs ∧ ∀ x ∈ xs, goodEntryName x = true := by
  unfold decodesToNameList at h
  cases hsl : safe_load_json parse v with
  | list xs =>
    rw [hsl] at h
    exact ⟨xs, rfl, fun x hx => List.all_eq_true.mp h x hx⟩
  | none => rw [hsl] at h; cases h
  | str s => rw [hsl] at h; cases h
  | int n => rw [hsl] at h; cases h
  | dict kvs => rw [hsl] at h; cases h

/-- Inversion of a well-decoding crew field. -/
theorem decodesToCrewList_ok (parse : JsonParser) (v : PyVal)
    (h : decodesToCrewList parse v = true) :
    ∃ xs, safe_load_json parse v = PyVal.list xs ∧ ∀ x ∈ xs, goodCrewEntry x = true := by
  unfold decodesToCrewList at h
  cases hsl : safe_load_json parse v with
  | list xs =>
    rw [hsl] at h
    exact ⟨xs, rfl, fun x hx => List.all_eq_true.mp h x hx⟩
  | none => rw [hsl] at h; cases h
  | str s => rw [hsl] at h; cases h
  | int n => rw [hsl] at h; cases h
  | dict kvs => rw [hsl] at h; cases h

/-- C2 counterexample: on a record whose overview field is the number 1 (a
malformed sub-field), the fact extractor raises an `AttributeError` from
`overview.strip()` instead of returning nine fact lines, so extraction is
not total on arbitrary malformed records. -/
theorem fact_extraction_counterexample :
    facts_list (fun _ => Option.none) [("overview", PyVal.int 1)] =
      Except.error "AttributeError: strip" ∧
    build_facts_and_instruction (fun _ => Option.none) [("overview", PyVal.int 1)] =
      Except.error "AttributeError: strip" :=
  ⟨rfl, rfl⟩

/-- C2 (amended): on every well-shaped record — overview absent, null or a
string; genres, cast and crew defensively decoding to lists whose dict
entries have string names (crew jobs absent, null or strings); string title
and language — fact extraction never raises and returns the ordered list of
exactly nine labeled fact lines, the full fact-and-instruction builder
succeeds with the newline-joined fact block, and every absent (or null)
data field renders the `N/A` sentinel in its fact line. -/
theorem fact_extraction_total_wellformed (parse : JsonParser) (movie : PyDict)
    (h : wellFormedRecord parse movie = true) :
    ∃ (ov rd gen cast dirs rt va vc pop lang si : String),
      facts_list parse movie = Except.ok
        ["Overview: " ++ ov, "Release date: " ++ rd, "Genres: " ++ gen,
         "Main cast (top billed): " ++ cast, "Director(s): " ++ dirs,
         "Runtime (minutes): " ++ rt,
         "Average rating: " ++ va ++ " (votes: " ++ vc ++ ")",
         "Popularity score: " ++ pop, "Language: " ++ lang] ∧
      build_facts_and_instruction parse movie = Except.ok
        (String.intercalate "\n"
          ["Overview: " ++ ov, "Release date: " ++ rd, "Genres: " ++ gen,
           "Main cast (top billed): " ++ cast, "Director(s): " ++ dirs,
           "Runtime (minutes): " ++ rt,
           "Average rating: " ++ va ++ " (votes: " ++ vc ++ ")",
           "Popularity score: " ++ pop, "Language: " ++ lang], si) ∧
      (pyGet movie "overview" = PyVal.none → ov = "N/A") ∧
      (pyGet movie "release_date" = PyVal.none → rd = "N/A") ∧
      (pyGet movie "genres" = PyVal.none → gen = "N/A") ∧
      (pyGet movie "cast" = PyVal.none → cast = "N/A") ∧
      (pyGet movie "crew" = PyVal.none → dirs = "N/A") ∧
      (pyGet movie "runtime" = PyVal.none → rt = "N/A") ∧
      (pyGet movie "vote_average" = PyVal.none → va = "N/A") ∧
      (pyGet movie "vote_count" = PyVal.none → vc = "N/A") ∧
      (pyGet movie "popularity" = PyVal.none → pop = "N/A") := by
  simp only [wellFormedRecord, Bool.and_eq_true] at h
  obtain ⟨⟨⟨⟨⟨hov, hgen⟩, hcast⟩, hcrew⟩, htit⟩, hlang⟩ := h
  obtain ⟨gxs, hgsl, hgood⟩ := decodesToNameList_ok parse _ hgen
  obtain ⟨cxs, hcsl, hcgood⟩ := decodesToNameList_ok parse _ hcast
  obtain ⟨crxs, hcrsl, hcrgood⟩ := decodesToCrewList_ok parse _ hcrew
  obtain ⟨ovS, hovS⟩ := pyStrip_or_ok _ hov
  obtain ⟨genS, hgenS⟩ := joinOrNA_ok _ (namesOfDicts_str gxs hgood)
  have hcaststr : ∀ v ∈ (if (namesOfDicts cxs).isEmpty then []
      else (namesOfDicts cxs).take 6), isStrB v = true := by
    intro v hv
    split at hv
    · cases hv
    · exact namesOfDicts_str cxs hcgood v (List.take_subset 6 _ hv)
  obtain ⟨castS, hcastS⟩ := joinOrNA_ok _ hcaststr
  obtain ⟨crD, hcrD, hcrDmem⟩ :=
    exceptFilter_ok directorCond crxs (fun x hx => directorCond_ok x (hcrgood x hx))
  have hdirstr : ∀ v ∈ (if (crD.map (fun c => dictGet c "name")).isEmpty then []
      else crD.map (fun c => dictGet c "name")), isStrB v = true := by
    intro v hv
    split at hv
    · cases hv
    · obtain ⟨y, hy, rfl⟩ := List.mem_map.mp hv
      obtain ⟨hyx, hcond⟩ := hcrDmem y hy
      have hygood := hcrgood y hyx
      cases y with
      | dict kvs =>
        simp only [goodCrewEntry, Bool.and_eq_true] at hygood
        simpa [dictGet] using hygood.1
      | none => cases hcond
      | str s => cases hcond
      | int n => cases hcond
      | list xs => cases hcond
  obtain ⟨dirS, hdirS⟩ := joinOrNA_ok _ hdirstr
  obtain ⟨t, ht⟩ : ∃ t, pyGet movie "title" = PyVal.str t := by
    rcases hx : pyGet movie "title" with _ | s | n | xs | kvs <;> rw [hx] at htit
    · cases htit
    · exact ⟨s, rfl⟩
    · cases htit
    · cases htit
    · cases htit
  obtain ⟨l, hl⟩ : ∃ l, pyGet movie "language" = PyVal.str l := by
    rcases hx : pyGet movie "language" with _ | s | n | xs | kvs <;> rw [hx] at hlang
    · cases hlang
    · exact ⟨s, rfl⟩
    · cases hlang
    · cases hlang
    · cases hlang
  have hfacts : facts_list parse movie = Except.ok
      ["Overview: " ++ (if ovS == "" then "N/A" else ovS),
       "Release date: " ++
         pyStr (pyOr (pyOr (pyGet movie "release_date") (PyVal.str "")) (PyVal.str "N/A")),
       "Genres: " ++ genS, "Main cast (top billed): " ++ castS, "Director(s): " ++ dirS,
       "Runtime (minutes): " ++
         pyStr (pyOr (pyOr (pyGet movie "runtime") (PyVal.str "")) (PyVal.str "N/A")),
       "Average rating: " ++
         pyStr (pyOr (pyOr (pyGet movie "vote_average") (PyVal.str "")) (PyVal.str "N/A")) ++
         " (votes: " ++
         pyStr (pyOr (pyOr (pyGet movie "vote_count") (PyVal.str "")) (PyVal.str "N/A")) ++ ")",
       "Popularity score: " ++
         pyStr (pyOr (pyOr (pyGet movie "popularity") (PyVal.str "")) (PyVal.str "N/A")),
       "Language: " ++ pyStr (pyOr (pyGet movie "language") (PyVal.str "N/A"))] := by
    simp only [facts_list, except_bind_ok]
    refine ⟨gxs, ?_, cxs, ?_, crxs, ?_, crD, hcrD, ovS, hovS, genS, hgenS, castS, hcastS,
      dirS, hdirS, rfl⟩
    · rw [hgsl]
      rfl
    · rw [hcsl]
      rfl
    · rw [hcrsl]
      rfl
  refine ⟨if ovS == "" then "N/A" else ovS,
    pyStr (pyOr (pyOr (pyGet movie "release_date") (PyVal.str "")) (PyVal.str "N/A")),
    genS, castS, dirS,
    pyStr (pyOr (pyOr (pyGet movie "runtime") (PyVal.str "")) (PyVal.str "N/A")),
    pyStr (pyOr (pyOr (pyGet movie "vote_average") (PyVal.str "")) (PyVal.str "N/A")),
    pyStr (pyOr (pyOr (pyGet movie "vote_count") (PyVal.str "")) (PyVal.str "N/A")),
    pyStr (pyOr (pyOr (pyGet movie "popularity") (PyVal.str "")) (PyVal.str "N/A")),
    pyStr (pyOr (pyGet movie "language") (PyVal.str "N/A")),
    instrPre ++ guessTemplate (pyToLower t) ++ instrMid ++
      "The movie title is: \"" ++ pyToLower t ++ "\"" ++ "\n" ++
      "The movie language is: \"" ++ pyToLower l ++ "\"" ++ "\n",
    hfacts, ?_, ?_, ?_, ?_, ?_, ?_, ?_, ?_, ?_, ?_⟩
  · simp only [build_facts_and_instruction, except_bind_ok]
    refine ⟨_, hfacts, pyToLower t, ?_, pyToLower l, ?_, rfl⟩
    · rw [ht]
      rfl
    · rw [hl]
      rfl
  · intro hget
    rw [hget] at hovS
    have h0 := Except.ok.inj hovS
    rw [← h0]
    rfl
  · intro hget
    rw [hget]
    rfl
  · intro hget
    rw [hget] at hgsl
    obtain rfl : gxs = [] := (PyVal.list.inj hgsl).symm
    exact (Except.ok.inj hgenS).symm
  · intro hget
    rw [hget] at hcsl
    obtain rfl : cxs = [] := (PyVal.list.inj hcsl).symm
    exact (Except.ok.inj hcastS).symm
  · intro hget
    rw [hget] at hcrsl
    obtain rfl : crxs = [] := (PyVal.list.inj hcrsl).symm
    obtain rfl : crD = [] := (Except.ok.inj hcrD).symm
    exact (Except.ok.inj hdirS).symm
  · intro hget
    rw [hget]
    rfl
  · intro hget
    rw [hget]
    rfl
  · intro hget
    rw [hget]
    rfl
  · intro hget
    rw [hget]
    rfl

/-- Witness for the amended C2: a record carrying only a string title and
language is well-shaped, so extraction returns the nine labeled lines, the
builder succeeds, and — every data field being absent here — each of the
nine absent-field implications pins its value to the `N/A` sentinel. -/
theorem fact_extraction_total_wellformed_witness :
    wellFormedRecord (fun _ => Option.none)
      [("title", PyVal.str "Inception"), ("language", PyVal.str "English")] = true ∧
    ∃ (ov rd gen cast dirs rt va vc pop lang si : String),
      facts_list (fun _ => Option.none)
        [("title", PyVal.str "Inception"), ("language", PyVal.str "English")] = Except.ok
        ["Overview: " ++ ov, "Release date: " ++ rd, "Genres: " ++ gen,
         "Main cast (top billed): " ++ cast, "Director(s): " ++ dirs,
         "Runtime (minutes): " ++ rt,
         "Average rating: " ++ va ++ " (votes: " ++ vc ++ ")",
         "Popularity score: " ++ pop, "Language: " ++ lang] ∧
      build_facts_and_instruction (fun _ => Option.none)
        [("title", PyVal.str "Inception"), ("language", PyVal.str "English")] = Except.ok
        (String.intercalate "\n"
          ["Overview: " ++ ov, "Release date: " ++ rd, "Genres: " ++ gen,
           "Main cast (top billed): " ++ cast, "Director(s): " ++ dirs,
           "Runtime (minutes): " ++ rt,
           "Average rating: " ++ va ++ " (votes: " ++ vc ++ ")",
           "Popularity score: " ++ pop, "Language: " ++ lang], si) ∧
      (pyGet [("title", PyVal.str "Inception"), ("language", PyVal.str "English")]
        "overview" = PyVal.none → ov = "N/A") ∧
      (pyGet [("title", PyVal.str "Inception"), ("language", PyVal.str "English")]
        "release_date" = PyVal.none → rd = "N/A") ∧
      (pyGet [("title", PyVal.str "Inception"), ("language", PyVal.str "English")]
        "genres" = PyVal.none → gen = "N/A") ∧
      (pyGet [("title", PyVal.str "Inception"), ("language", PyVal.str "English")]
        "cast" = PyVal.none → cast = "N/A") ∧
      (pyGet [("title", PyVal.str "Inception"), ("language", PyVal.str "English")]
        "crew" = PyVal.none → dirs = "N/A") ∧
      (pyGet [("title", PyVal.str "Inception"), ("language", PyVal.str "English")]
        "runtime" = PyVal.none → rt = "N/A") ∧
      (pyGet [("title", PyVal.str "Inception"), ("language", PyVal.str "English")]
        "vote_average" = PyVal.none → va = "N/A") ∧
      (pyGet [("title", PyVal.str "Inception"), ("language", PyVal.str "English")]
        "vote_count" = PyVal.none → vc = "N/A") ∧
      (pyGet [("title", PyVal.str "Inception"), ("language", PyVal.str "English")]
        "popularity" = PyVal.none → pop = "N/A") :=
  ⟨rfl, fact_extraction_total_wellformed (fun _ => Option.none)
    [("title", PyVal.str "Inception"), ("language", PyVal.str "English")] rfl⟩

/-- C3: whenever the answer prompt is composed for a movie (string title and
language) and a user question, the prompt contains the literal correct-guess
template with the lower-cased title substituted, the newline-joined fact
sheet, the literal lower-cased title and language lines, and the
lower-cased, trimmed user question. -/
theorem answer_prompt_embeds (parse : JsonParser) (movie : PyDict) (q t l : String)
    (fs : List String)
    (ht : pyGet movie "title" = PyVal.str t) (hl : pyGet movie "language" = PyVal.str l)
    (hf : facts_list parse movie = Except.ok fs) :
    ∃ p, ask_question_prompt parse movie q = Except.ok p ∧
      StrContains p ("Yes, that is correct! The movie is " ++ pyToLower t ++ ".") ∧
      StrContains p (String.intercalate "\n" fs) ∧
      StrContains p ("The movie title is: \"" ++ pyToLower t ++ "\"") ∧
      StrContains p ("The movie language is: \"" ++ pyToLower l ++ "\"") ∧
      StrContains p ("User question: " ++ pyToLower (pyTrim q)) := by
  have hbuild : build_facts_and_instruction parse movie = Except.ok
      (String.intercalate "\n" fs,
       instrPre ++ guessTemplate (pyToLower t) ++ instrMid ++
       "The movie title is: \"" ++ pyToLower t ++ "\"" ++ "\n" ++
       "The movie language is: \"" ++ pyToLower l ++ "\"" ++ "\n") := by
    simp only [build_facts_and_instruction, except_bind_ok]
    refine ⟨fs, hf, pyToLower t, ?_, pyToLower l, ?_, rfl⟩
    · rw [ht]
      rfl
    · rw [hl]
      rfl
  refine ⟨instrPre ++ guessTemplate (pyToLower t) ++ instrMid ++
    "The movie title is: \"" ++ pyToLower t ++ "\"" ++ "\n" ++
    "The movie language is: \"" ++ pyToLower l ++ "\"" ++ "\n" ++ "\n\n" ++
    "Movie facts:\n" ++ String.intercalate "\n" fs ++ "\n\n" ++
    "User question: " ++ pyToLower (pyTrim q), ?_, ?_, ?_, ?_, ?_, ?_⟩
  · simp only [ask_question_prompt, except_bind_ok]
    exact ⟨_, hbuild, rfl⟩
  · refine ⟨instrPre,
      instrMid ++ "The movie title is: \"" ++ pyToLower t ++ "\"" ++ "\n" ++
      "The movie language is: \"" ++ pyToLower l ++ "\"" ++ "\n" ++ "\n\n" ++
      "Movie facts:\n" ++ String.intercalate "\n" fs ++ "\n\n" ++
      "User question: " ++ pyToLower (pyTrim q), ?_⟩
    apply String.ext
    simp [guessTemplate, String.data_append, List.append_assoc]
  · refine ⟨instrPre ++ guessTemplate (pyToLower t) ++ instrMid ++
      "The movie title is: \"" ++ pyToLower t ++ "\"" ++ "\n" ++
      "The movie language is: \"" ++ pyToLower l ++ "\"" ++ "\n" ++ "\n\n" ++
      "Movie facts:\n",
      "\n\n" ++ "User question: " ++ pyToLower (pyTrim q), ?_⟩
    apply String.ext
    simp [String.data_append, List.append_assoc]
  · refine ⟨instrPre ++ guessTemplate (pyToLower t) ++ instrMid,
      "\n" ++ "The movie language is: \"" ++ pyToLower l ++ "\"" ++ "\n" ++ "\n\n" ++
      "Movie facts:\n" ++ String.intercalate "\n" fs ++ "\n\n" ++
      "User question: " ++ pyToLower (pyTrim q), ?_⟩
    apply String.ext
    simp [String.data_append, List.append_assoc]
  · refine ⟨instrPre ++ guessTemplate (pyToLower t) ++ instrMid ++
      "The movie title is: \"" ++ pyToLower t ++ "\"" ++ "\n",
      "\n" ++ "\n\n" ++ "Movie facts:\n" ++ String.intercalate "\n" fs ++ "\n\n" ++
      "User question: " ++ pyToLower (pyTrim q), ?_⟩
    apply String.ext
    simp [String.data_append, List.append_assoc]
  · refine ⟨instrPre ++ guessTemplate (pyToLower t) ++ instrMid ++
      "The movie title is: \"" ++ pyToLower t ++ "\"" ++ "\n" ++
      "The movie language is: \"" ++ pyToLower l ++ "\"" ++ "\n" ++ "\n\n" ++
      "Movie facts:\n" ++ String.intercalate "\n" fs ++ "\n\n",
      "", ?_⟩
    apply String.ext
    simp [String.data_append, List.append_assoc]

/-- Witness for C3: the concrete movie titled Inception with question
`Is it Inception?` yields a prompt embedding the correct-guess template, the
fact sheet, the title, language and trimmed lower-cased question. -/
theorem answer_prompt_embeds_witness :
    ∃ p, ask_question_prompt (fun _ => Option.none)
        [("title", PyVal.str "Inception"), ("language", PyVal.str "English")]
        "  Is it Inception? " = Except.ok p ∧
      StrContains p ("Yes, that is correct! The movie is " ++ pyToLower "Inception" ++ ".") ∧
      StrContains p (String.intercalate "\n"
        ["Overview: N/A", "Release date: N/A", "Genres: N/A",
         "Main cast (top billed): N/A", "Director(s): N/A", "Runtime (minutes): N/A",
         "Average rating: N/A (votes: N/A)", "Popularity score: N/A",
         "Language: English"]) ∧
      StrContains p ("The movie title is: \"" ++ pyToLower "Inception" ++ "\"") ∧
      StrContains p ("The movie language is: \"" ++ pyToLower "English" ++ "\"") ∧
      StrContains p ("User question: " ++ pyToLower (pyTrim "  Is it Inception? ")) :=
  answer_prompt_embeds (fun _ => Option.none)
    [("title", PyVal.str "Inception"), ("language", PyVal.str "English")]
    "  Is it Inception? " "Inception" "English"
    ["Overview: N/A", "Release date: N/A", "Genres: N/A",
     "Main cast (top billed): N/A", "Director(s): N/A", "Runtime (minutes): N/A",
     "Average rating: N/A (votes: N/A)", "Popularity score: N/A", "Language: English"]
    rfl rfl rfl

/-- Sampling by in-bounds indices returns exactly one row per index. -/
theorem sampleIdx_length (idx : List Nat) (rows : List PyDict)
    (h : ∀ i ∈ idx, i < rows.length) :
    (sampleIdx idx rows).length = idx.length := by
  induction idx with
  | nil => rfl
  | cons i is ih =>
    have hi : i < rows.length := h i (List.mem_cons_self i is)
    have hsome : rows.get? i = some (rows.get ⟨i, hi⟩) := List.get?_eq_get hi
    have ih2 := ih (fun j hj => h j (List.mem_cons_of_mem i hj))
    simp only [sampleIdx] at ih2
    simp only [sampleIdx, List.filterMap_cons, hsome, List.length_cons, ih2]

/-- Selecting every index of a list in order reproduces the list. -/
theorem range_filterMap_get (rows : List PyDict) :
    (List.range rows.length).filterMap (fun i => rows.get? i) = rows := by
  induction rows with
  | nil => rfl
  | cons r rs ih =>
    rw [List.length_cons, List.range_succ_eq_map, List.filterMap_cons, List.filterMap_map]
    have hcomp : ((fun i => (r :: rs).get? i) ∘ Nat.succ) = fun i => rs.get? i := by
      funext i
      simp
    simp only [List.get?_cons_zero, hcomp, ih]

/-- Shuffling by a permutation of all indices permutes the rows. -/
theorem sampleIdx_perm (idx : List Nat) (rows : List PyDict)
    (h : List.Perm idx (List.range rows.length)) :
    List.Perm (sampleIdx idx rows) rows := by
  have h2 := List.Perm.filterMap (fun i => rows.get? i) h
  rw [range_filterMap_get rows] at h2
  exact h2

/-- C4: when the seeded samplers return 150 in-bounds rows from each
normalized source and the final shuffle is a permutation of the 300
positions, the candidate pool holds exactly 300 records and is a
permutation of the 150 TMDB rows followed by the 150 Bollywood rows. -/
theorem pool_composition (tmdbRows bollyRows : List PyDict) (tIdx bIdx sIdx : List Nat)
    (htl : tIdx.length = 150) (htb : ∀ i ∈ tIdx, i < tmdbRows.length)
    (hbl : bIdx.length = 150) (hbb : ∀ i ∈ bIdx, i < bollyRows.length)
    (hs : List.Perm sIdx (List.range 300)) :
    (build_pool tmdbRows bollyRows tIdx bIdx sIdx).length = 300 ∧
    List.Perm (build_pool tmdbRows bollyRows tIdx bIdx sIdx)
      (sampleIdx tIdx tmdbRows ++ sampleIdx bIdx bollyRows) ∧
    (sampleIdx tIdx tmdbRows).length = 150 ∧
    (sampleIdx bIdx bollyRows).length = 150 := by
  have h1 : (sampleIdx tIdx tmdbRows).length = 150 := by
    rw [sampleIdx_length tIdx tmdbRows htb, htl]
  have h2 : (sampleIdx bIdx bollyRows).length = 150 := by
    rw [sampleIdx_length bIdx bollyRows hbb, hbl]
  have happ : (sampleIdx tIdx tmdbRows ++ sampleIdx bIdx bollyRows).length = 300 := by
    rw [List.length_append, h1, h2]
  have hperm : List.Perm (build_pool tmdbRows bollyRows tIdx bIdx sIdx)
      (sampleIdx tIdx tmdbRows ++ sampleIdx bIdx bollyRows) := by
    show List.Perm (sampleIdx sIdx (sampleIdx tIdx tmdbRows ++ sampleIdx bIdx bollyRows)) _
    apply sampleIdx_perm
    rw [happ]
    exact hs
  exact ⟨by rw [hperm.length_eq, happ], hperm, h1, h2⟩

/-- Witness for C4: two sources of exactly 150 rows each, identity sample
index lists and an identity shuffle build a pool of exactly 300 records. -/
theorem pool_composition_witness :
    (build_pool (List.replicate 150 ([] : PyDict)) (List.replicate 150 ([] : PyDict))
      (List.range 150) (List.range 150) (List.range 300)).length = 300 ∧
    List.Perm (build_pool (List.replicate 150 ([] : PyDict))
        (List.replicate 150 ([] : PyDict)) (List.range 150) (List.range 150)
        (List.range 300))
      (sampleIdx (List.range 150) (List.replicate 150 ([] : PyDict)) ++
       sampleIdx (List.range 150) (List.replicate 150 ([] : PyDict))) ∧
    (sampleIdx (List.range 150) (List.replicate 150 ([] : PyDict))).length = 150 ∧
    (sampleIdx (List.range 150) (List.replicate 150 ([] : PyDict))).length = 150 :=
  pool_composition (List.replicate 150 []) (List.replicate 150 [])
    (List.range 150) (List.range 150) (List.range 300)
    (List.length_range 150) (by simp [List.mem_range])
    (List.length_range 150) (by simp [List.mem_range])
    (List.Perm.refl (List.range 300))

/-- Witness for C6: a concrete `/ask` run in which the stubbed completion
answers with the correct-guess template yields `game_over = true`, and the
iff instantiates at that answer. -/
theorem game_over_spec_witness :
    true = true ↔
      ((∃ r, pyToLower "Yes, that is correct! The movie is inception." = "yes" ++ r) ∧
        ∃ p q, pyToLower "Yes, that is correct! The movie is inception." =
          p ++ "correct" ++ q) :=
  game_over_spec (fun _ => Option.none)
    (fun _ => Except.ok "Yes, that is correct! The movie is inception.")
    [("title", PyVal.str "Inception"), ("language", PyVal.str "English")]
    [] "is it inception?" Option.none "g"
    "Yes, that is correct! The movie is inception." true "g"
    [("g", [("title", PyVal.str "Inception"), ("language", PyVal.str "English")])]
    rfl
